import Mathlib

/-!
Verification development for a chat application (src/app.py): a shallow
embedding of its tool functions, session bootstrap, run-polling loop,
message routing and response renderer, with theorems checking the
specification claims against the embedded code.
-/

/-! ## JSON values and serialization (model of the json module as used by the code) -/

/-- A JSON value, as produced by json.loads and consumed by json.dumps. -/
inductive JsonVal where
  | str (s : String)
  | num (q : Rat)
  | obj (fields : List (String × JsonVal))

/-- Escaping of a single character inside a JSON string literal. -/
def escapeChar (c : Char) : String :=
  if c = '\\' then "\\\\" else if c = '"' then "\\\"" else String.singleton c

/-- Escaping of a string for a JSON string literal. -/
def escapeJson (s : String) : String := String.join (s.toList.map escapeChar)

/-- A JSON string literal with surrounding quotes. -/
def quoteStr (s : String) : String := "\"" ++ escapeJson s ++ "\""

/-- Decimal rendering of a float value that carries at most one decimal
digit, as Python repr prints the result of round(x, 1) inside json.dumps. -/
def floatRepr (q : Rat) : String :=
  let scaled : Int := q.num * 10
  if scaled % (q.den : Int) = 0 then
    let n : Int := scaled / (q.den : Int)
    let sgn := if n < 0 then "-" else ""
    let a := n.natAbs
    sgn ++ toString (a / 10) ++ "." ++ toString (a % 10)
  else toString q

mutual

/-- Serialization of a JSON value with the default json.dumps separators. -/
def jsonDumps : JsonVal → String
  | .str s => quoteStr s
  | .num q => floatRepr q
  | .obj fs => "\x7b" ++ dumpFields fs ++ "\x7d"

/-- Serialization of the key-value pairs of a JSON object. -/
def dumpFields : List (String × JsonVal) → String
  | [] => ""
  | [(k, v)] => quoteStr k ++ ": " ++ jsonDumps v
  | (k, v) :: rest => quoteStr k ++ ": " ++ jsonDumps v ++ ", " ++ dumpFields rest

end

/-! ## Rounding (model of the Python built-in round(x, 1), which rounds half to even) -/

/-- round(x, 1): the multiple of one tenth nearest to x, ties going to the
even multiple.  Computed on the numerator and denominator so that it
evaluates by kernel reduction. -/
def round1 (x : Rat) : Rat :=
  let num10 : Int := x.num * 10
  let den : Int := (x.den : Int)
  let f : Int := Int.fdiv num10 den
  let n : Int :=
    if 2 * (num10 - f * den) < den then f
    else if den < 2 * (num10 - f * den) then f + 1
    else if f % 2 = 0 then f else f + 1
  mkRat n 10

/-! ## Civil time (model of datetime arithmetic and the strftime format used by the code) -/

/-- A broken-down UTC-offset timestamp: year, month, day, hour, minute. -/
structure DateTime where
  year : Int
  month : Nat
  day : Nat
  hour : Nat
  minute : Nat
deriving Repr, DecidableEq

/-- Conversion from a count of days since 1970-01-01 to a civil date,
by the standard era-based algorithm of the proleptic Gregorian calendar. -/
def civilFromDays (z0 : Int) : Int × Nat × Nat :=
  let z := z0 + 719468
  let era : Int := Int.fdiv z 146097
  let doe : Int := z - era * 146097
  let yoe : Int := (doe - doe / 1460 + doe / 36524 - doe / 146096) / 365
  let y : Int := yoe + era * 400
  let doy : Int := doe - (365 * yoe + yoe / 4 - yoe / 100)
  let mp : Int := (5 * doy + 2) / 153
  let d : Int := doy - (153 * mp + 2) / 5 + 1
  let m : Int := mp + (if mp < 10 then 3 else -9)
  (y + (if m ≤ 2 then 1 else 0), m.toNat, d.toNat)

/-- Conversion from seconds since the epoch to a civil date and time of day. -/
def civilOfEpoch (t : Int) : DateTime :=
  let days := Int.fdiv t 86400
  let sod := (Int.emod t 86400).toNat
  let ymd := civilFromDays days
  ⟨ymd.1, ymd.2.1, ymd.2.2, sod / 3600, sod % 3600 / 60⟩

/-- Zero-padding of a number to two digits. -/
def pad2 (n : Nat) : String := if n < 10 then "0" ++ toString n else toString n

/-- The 12-hour clock hour shown for a 24-hour clock hour. -/
def hour12 (h : Nat) : Nat := if h % 12 = 0 then 12 else h % 12

/-- strftime with the fixed format used by the code, directives
percent-Y, percent-m, percent-d, percent-I, percent-M, percent-p. -/
def strftime_YmdIMp (dt : DateTime) : String :=
  toString dt.year ++ "-" ++ pad2 dt.month ++ "-" ++ pad2 dt.day ++ " " ++
    pad2 (hour12 dt.hour) ++ ":" ++ pad2 dt.minute ++ " " ++
    (if dt.hour < 12 then "AM" else "PM")

/-! ## Weather provider and tool functions (src/app.py lines 34-56) -/

/-- The parsed body of a successful weather-provider response: the fields
main.temp, weather[0].description and timezone that the code reads. -/
structure LocationData where
  temp : Rat
  description : String
  timezone : Int

/-- The outcome of the one HTTP GET issued for a location: a network
exception, or a response with a status code and a body. -/
inductive FetchOutcome where
  | netError
  | response (status : Nat) (body : LocationData)

/-- The ambient environment of one tool evaluation: whether the weather
key is configured, the provider outcome per queried location, the present
UTC time in epoch seconds, and the remote file store for lookups by handle. -/
structure World where
  weather_key : Bool
  fetch : JsonVal → FetchOutcome
  now : Int
  files_content : Nat → List Nat

/-- get_location_data: absent key, a network exception, or a non-200
status all yield none; a 200 response yields the parsed body. -/
def get_location_data (w : World) (location : JsonVal) : Option LocationData :=
  if w.weather_key = false then none
  else
    match w.fetch location with
    | .netError => none
    | .response status body => if status = 200 then some body else none

/-- get_current_weather: a JSON string with location, temperature rounded
to one decimal, unit celsius and description on success, or the error
sentinel on failure. -/
def get_current_weather (w : World) (location : JsonVal) : String :=
  match get_location_data w location with
  | some data =>
      jsonDumps (.obj [("location", location),
        ("temperature", .num (round1 data.temp)),
        ("unit", .str "celsius"),
        ("description", .str data.description)])
  | none => jsonDumps (.obj [("error", .str "City not found")])

/-- get_current_time: a JSON string with location and the local time
(UTC now plus the fetched offset) on success, or the error sentinel on
failure. -/
def get_current_time (w : World) (location : JsonVal) : String :=
  match get_location_data w location with
  | some data =>
      jsonDumps (.obj [("location", location),
        ("current_time", .str (strftime_YmdIMp (civilOfEpoch (w.now + data.timezone))))])
  | none => jsonDumps (.obj [("error", .str "City not found")])

/-! ## Tool-call dispatch and the run-polling loop (src/app.py lines 159-184) -/

/-- An exception that the dispatch code can raise while decoding tool
arguments: json.loads failure, a missing dict key, or subscripting a
non-dict value. -/
inductive PyErr where
  | jsonDecodeError
  | keyError
  | typeError
deriving Repr, DecidableEq

/-- A remote-issued tool call: its call id, function name, and the parse
result of its JSON arguments string (none when the string is not valid
JSON). -/
structure ToolCall where
  id : String
  function_name : String
  arguments : Option JsonVal

/-- json.loads on the arguments string: yields the parsed value or raises. -/
def json_loads : Option JsonVal → Except PyErr JsonVal
  | none => .error .jsonDecodeError
  | some v => .ok v

/-- Subscripting a JSON value with a string key, raising KeyError when a
dict lacks the key and TypeError on a non-dict. -/
def getItem (v : JsonVal) (k : String) : Except PyErr JsonVal :=
  match v with
  | .obj fs =>
      match fs.lookup k with
      | some x => .ok x
      | none => .error .keyError
  | _ => .error .typeError

/-- The composite decoding step json.loads followed by subscripting with
the key location, as performed before invoking a tool function. -/
def decodeLocation (args : Option JsonVal) : Except PyErr JsonVal :=
  match json_loads args with
  | .error e => .error e
  | .ok v => getItem v "location"

/-- One iteration of the dispatch loop body: decode the arguments, then
resolve by function name, producing the (call id, output) pair or raising. -/
def processOneTool (w : World) (tc : ToolCall) : Except PyErr (String × String) :=
  match json_loads tc.arguments with
  | .error e => .error e
  | .ok args =>
      if tc.function_name = "get_current_weather" then
        match getItem args "location" with
        | .error e => .error e
        | .ok loc => .ok (tc.id, get_current_weather w loc)
      else if tc.function_name = "get_current_time" then
        match getItem args "location" with
        | .error e => .error e
        | .ok loc => .ok (tc.id, get_current_time w loc)
      else .ok (tc.id, "\x7b\x7d")

/-- The dispatch loop over one requires_action batch, collecting the
tool_outputs list in order, short-circuiting when an iteration raises. -/
def processToolCalls (w : World) : List ToolCall → Except PyErr (List (String × String))
  | [] => .ok []
  | tc :: rest =>
      match processOneTool w tc with
      | .error e => .error e
      | .ok p =>
          match processToolCalls w rest with
          | .error e => .error e
          | .ok ps => .ok (p :: ps)

/-- A run status as observed by one poll of runs.retrieve. -/
inductive PollStatus where
  | completed
  | requires_action (tool_calls : List ToolCall)
  | failed
  | cancelled
  | expired
  | in_progress
  | queued

/-- The three terminal error statuses. -/
inductive ErrStatus where
  | failed
  | cancelled
  | expired
deriving Repr, DecidableEq

/-- The poll status corresponding to a terminal error status. -/
def statusOfErr : ErrStatus → PollStatus
  | .failed => .failed
  | .cancelled => .cancelled
  | .expired => .expired

/-- How the polling loop ended: break on completed, break on a terminal
error status, an uncaught exception from dispatch, or the poll script ran
out (the loop would still be polling). -/
inductive LoopEnd where
  | completedEnd
  | errorEnd (s : ErrStatus)
  | raisedEnd (e : PyErr)
  | outEnd
deriving Repr, DecidableEq

/-- The polling loop, driven by the sequence of statuses that successive
runs.retrieve calls return.  Produces the list of submit_tool_outputs
batches made, in order, and how the loop ended. -/
def runLoop (w : World) : List PollStatus → List (List (String × String)) × LoopEnd
  | [] => ([], .outEnd)
  | .completed :: _ => ([], .completedEnd)
  | .requires_action tcs :: rest =>
      match processToolCalls w tcs with
      | .error e => ([], .raisedEnd e)
      | .ok outs =>
          let r := runLoop w rest
          (outs :: r.1, r.2)
  | .failed :: _ => ([], .errorEnd .failed)
  | .cancelled :: _ => ([], .errorEnd .cancelled)
  | .expired :: _ => ([], .errorEnd .expired)
  | .in_progress :: rest => runLoop w rest
  | .queued :: rest => runLoop w rest

/-! ## Message construction and file routing (src/app.py lines 109-151) -/

/-- os.path.splitext, second component: the extension from the last dot,
empty when the dot only leads the base name. -/
def splitextExt (name : String) : String :=
  let cs := name.toList
  let sep : Int := (List.range cs.length).foldl
    (fun acc i => if cs.get? i = some '/' then (i : Int) else acc) (-1)
  let dot : Int := (List.range cs.length).foldl
    (fun acc i => if cs.get? i = some '.' then (i : Int) else acc) (-1)
  if sep < dot then
    let base := ((cs.drop (sep + 1).toNat).take (dot - sep - 1).toNat)
    if base.any (fun c => c ≠ '.') then (cs.drop dot.toNat).asString else ""
  else ""

/-- The extensions routed to the inline-image branch. -/
def imageExts : List String := [".png", ".jpg", ".jpeg", ".gif", ".webp"]

/-- The extensions the upload widget accepts. -/
def uploadAllowList : List String :=
  [".txt", ".csv", ".xlsx", ".pdf", ".png", ".jpg", ".jpeg", ".gif"]

/-- One part of a structured outbound message content list. -/
inductive ContentPart where
  | text (s : String)
  | image_file (file_id : Nat)

/-- Outbound message content: a plain string or a structured part list. -/
inductive MsgContent where
  | plain (s : String)
  | parts (l : List ContentPart)

/-- A capability granted to an attachment. -/
inductive ToolType where
  | code_interpreter
  | file_search

/-- One entry of the attachments list of messages.create. -/
structure AttachmentRec where
  file_id : Nat
  tools : List ToolType

/-- The record of the one messages.create call of a user turn. -/
structure MessageCreate where
  content : MsgContent
  attachments : List AttachmentRec

/-- The content and attachments sent for a user turn: an uploaded file is
routed by its lowercased extension either into the content part list
(image extensions) or into the attachments list (everything else). -/
def buildMessage (uploaded : Option String) (fid : Nat) (prompt : String) :
    MsgContent × List AttachmentRec :=
  match uploaded with
  | none => (.plain prompt, [])
  | some name =>
      let ext := ((splitextExt name).data.map Char.toLower).asString
      if ext ∈ imageExts then
        (.parts [.text prompt, .image_file fid], [])
      else
        (.plain prompt, [⟨fid, [.code_interpreter, .file_search]⟩])

/-! ## Response renderer (src/app.py lines 188-221) -/

/-- A marker attached to an assistant text block; the code only acts on
the file_path kind, which carries a file handle and a free-text path. -/
inductive TextMarker where
  | file_path (file_id : Nat) (text : String)
  | otherMarker

/-- One content block of an assistant message: a text block with its
value and markers, an image block with its file handle, or another kind. -/
inductive ContentBlock where
  | text (value : String) (markers : List TextMarker)
  | image_file (file_id : Nat)
  | otherBlock

/-- os.path.basename: the part of a path after its last slash. -/
def basename (s : String) : String :=
  ((s.toList.reverse.takeWhile (fun c => c ≠ '/')).reverse).asString

/-- The download entries contributed by the markers of one text block:
each file_path marker resolved to bytes, named by the base name of its
path. -/
def markerFiles (store : Nat → List Nat) (ms : List TextMarker) :
    List (String × List Nat) :=
  ms.filterMap (fun m =>
    match m with
    | .file_path fid t => some (basename t, store fid)
    | .otherMarker => none)

/-- What the renderer accumulates over the content blocks of the newest
assistant message, with the variable names of the code. -/
structure Rendered where
  response_txt : String
  images_to_show : List (List Nat)
  files_to_download : List (String × List Nat)

/-- The rendering loop over the content blocks, in block order: text
values concatenated, image handles resolved to bytes, file_path markers
resolved to named download entries. -/
def renderContent (store : Nat → List Nat) : List ContentBlock → Rendered
  | [] => ⟨"", [], []⟩
  | .text v ms :: rest =>
      let r := renderContent store rest
      ⟨v ++ r.response_txt, r.images_to_show, markerFiles store ms ++ r.files_to_download⟩
  | .image_file fid :: rest =>
      let r := renderContent store rest
      ⟨r.response_txt, store fid :: r.images_to_show, r.files_to_download⟩
  | .otherBlock :: rest => renderContent store rest

/-! ## Transcript and the handling of one user turn (src/app.py lines 109-221) -/

/-- One transcript entry, with the keys the code stores: role, content,
and the optional images and files lists that only assistant turns carry. -/
structure Turn where
  role : String
  content : MsgContent
  images : Option (List (List Nat))
  files : Option (List (String × List Nat))

/-- The user turn appended to the transcript when a prompt is entered:
the raw prompt string as content, no images key, no files key. -/
def userTurn (prompt : String) : Turn := ⟨"user", .plain prompt, none, none⟩

/-- The assistant turn appended after the loop: the rendered text,
images and files. -/
def assistantTurn (r : Rendered) : Turn :=
  ⟨"assistant", .plain r.response_txt, some r.images_to_show, some r.files_to_download⟩

/-- The external circumstances of one user turn: the ambient world, the
optional uploaded file and the handle files.create returns for it, the
run status sequence the polls will observe, and the content of the newest
thread message once the loop ends. -/
structure TurnEnv where
  world : World
  uploaded_file : Option String
  upload_id : Nat
  script : List PollStatus
  latest_content : List ContentBlock

/-- Everything observable about one handled user turn: the
messages.create record, the submit_tool_outputs batches, how the loop
ended, whether the error box was shown, and the transcript afterwards. -/
structure TurnResult where
  msg : MessageCreate
  submissions : List (List (String × String))
  loop_end : LoopEnd
  errorShown : Bool
  transcript : List Turn

/-- One full user turn: append the user turn to the transcript, build and
send the message, drive the polling loop, and - for both the completed
and the terminal-error exits - render the newest thread message and
append it as an assistant turn.  An uncaught dispatch exception or an
exhausted script stops the turn early, after the user turn was already
appended. -/
def handleTurn (env : TurnEnv) (prompt : String) (t0 : List Turn) : TurnResult :=
  let t1 := t0 ++ [userTurn prompt]
  let mc := buildMessage env.uploaded_file env.upload_id prompt
  let msg : MessageCreate := ⟨mc.1, mc.2⟩
  let lr := runLoop env.world env.script
  match lr.2 with
  | .raisedEnd e => ⟨msg, lr.1, .raisedEnd e, false, t1⟩
  | .outEnd => ⟨msg, lr.1, .outEnd, false, t1⟩
  | .completedEnd =>
      let r := renderContent env.world.files_content env.latest_content
      ⟨msg, lr.1, .completedEnd, false, t1 ++ [assistantTurn r]⟩
  | .errorEnd s =>
      let r := renderContent env.world.files_content env.latest_content
      ⟨msg, lr.1, .errorEnd s, true, t1 ++ [assistantTurn r]⟩

/-! ## Assistant and thread bootstrap (src/app.py lines 61-79) -/

/-- The remote service state the bootstrap touches: a fresh-handle
counter and how many assistants and threads were created so far. -/
structure RemoteState where
  nextId : Nat
  assistantsCreated : Nat
  threadsCreated : Nat
deriving Repr, DecidableEq

/-- The per-process state: the session keys assistant, thread and
messages, plus the cache_resource memo of create_assistant. -/
structure AppState where
  assistant : Option Nat
  thread : Option Nat
  messages : Option (List Turn)
  assistantCache : Option Nat

/-- assistants.create: returns a fresh assistant handle. -/
def create_assistant (r : RemoteState) : Nat × RemoteState :=
  (r.nextId, ⟨r.nextId + 1, r.assistantsCreated + 1, r.threadsCreated⟩)

/-- threads.create: returns a fresh thread handle. -/
def create_thread (r : RemoteState) : Nat × RemoteState :=
  (r.nextId, ⟨r.nextId + 1, r.assistantsCreated, r.threadsCreated + 1⟩)

/-- create_assistant under the cache_resource decorator: the remote call
happens only on a cache miss. -/
def cached_create_assistant (s : AppState) (r : RemoteState) :
    Nat × AppState × RemoteState :=
  match s.assistantCache with
  | some a => (a, s, r)
  | none =>
      let ar := create_assistant r
      (ar.1, { s with assistantCache := some ar.1 }, ar.2)

/-- The bootstrap block: when the session has no assistant key yet, create
the assistant (through the cache), create a thread, and set the three
session keys; otherwise do nothing. -/
def ensure_session (s : AppState) (r : RemoteState) : AppState × RemoteState :=
  match s.assistant with
  | some _ => (s, r)
  | none =>
      let x := cached_create_assistant s r
      let t := create_thread x.2.2
      ({ x.2.1 with assistant := some x.1, thread := some t.1, messages := some [] }, t.2)

/-! ## Specification-side block partition (for comparison with the renderer) -/

/-- The concatenation of the values of the text blocks, in block order. -/
def textConcat : List ContentBlock → String
  | [] => ""
  | .text v _ :: rest => v ++ textConcat rest
  | _ :: rest => textConcat rest

/-- The file handles of the image blocks, in block order. -/
def imageIds : List ContentBlock → List Nat
  | [] => []
  | .image_file fid :: rest => fid :: imageIds rest
  | _ :: rest => imageIds rest

/-- The (handle, path) pairs of the file_path markers of the text blocks,
in block order. -/
def filePathPairs : List ContentBlock → List (Nat × String)
  | [] => []
  | .text _ ms :: rest =>
      ms.filterMap (fun m =>
        match m with
        | .file_path fid t => some (fid, t)
        | .otherMarker => none) ++ filePathPairs rest
  | _ :: rest => filePathPairs rest

/-! ## Shared helper lemmas -/

/-- round1 is a rounding to one decimal place: it lands within one
twentieth of its argument, on a multiple of one tenth. -/
theorem round1_nearest (x : Rat) : |round1 x - x| ≤ 1 / 20 ∧ (round1 x * 10).den = 1 := by
  have hDpos : (0:Int) < (x.den : Int) := by exact_mod_cast x.den_pos
  have hfe : Int.fdiv (x.num * 10) (x.den : Int) = (x.num * 10) / (x.den : Int) :=
    Int.fdiv_eq_ediv _ hDpos.le
  have hrem : (x.num * 10) % (x.den : Int)
      = x.num * 10 - Int.fdiv (x.num * 10) (x.den : Int) * (x.den : Int) := by
    rw [hfe]
    have := Int.ediv_add_emod (x.num * 10) (x.den : Int)
    linarith
  have hr0 : 0 ≤ x.num * 10 - Int.fdiv (x.num * 10) (x.den : Int) * (x.den : Int) := by
    rw [← hrem]; exact Int.emod_nonneg _ (by omega)
  have hr1 : x.num * 10 - Int.fdiv (x.num * 10) (x.den : Int) * (x.den : Int) < (x.den : Int) := by
    rw [← hrem]; exact Int.emod_lt_of_pos _ hDpos
  rw [round1]
  set N : Int := x.num * 10 with hN
  set D : Int := (x.den : Int) with hD
  set f : Int := Int.fdiv N D with hf
  set n : Int :=
    (if 2 * (N - f * D) < D then f
     else if D < 2 * (N - f * D) then f + 1
     else if f % 2 = 0 then f else f + 1) with hn
  have hint : -D ≤ 2 * (n * D - N) ∧ 2 * (n * D - N) ≤ D := by
    rw [hn]; split_ifs <;> constructor <;> nlinarith
  have hmk : mkRat n 10 = (n : Rat) / 10 := Rat.mkRat_eq_div n 10
  rw [hmk]
  have hDq : (0:Rat) < ((x.den : Int) : Rat) := by exact_mod_cast x.den_pos
  constructor
  · have hden : ((x.den : Rat)) ≠ 0 := ne_of_gt (by exact_mod_cast x.den_pos)
    have hx : ((x.num : Rat)) = x * ((x.den : Rat)) := by
      calc ((x.num : Rat)) = ((x.num : Rat)) / ((x.den : Rat)) * ((x.den : Rat)) :=
            (div_mul_cancel₀ _ hden).symm
        _ = x * ((x.den : Rat)) := by rw [Rat.num_div_den x]
    have hdiff : (n : Rat) / 10 - x = ((2 * (n * D - N) : Int) : Rat) / (20 * ((D : Int) : Rat)) := by
      push_cast [hN, hD]
      field_simp
      linear_combination (200 : Rat) * hx
    rw [hdiff, abs_div]
    rw [abs_of_pos (by positivity : (0:Rat) < 20 * ((D : Int) : Rat))]
    rw [div_le_iff₀ (by positivity : (0:Rat) < 20 * ((D : Int) : Rat))]
    have h1 : ((-D : Int) : Rat) ≤ ((2 * (n * D - N) : Int) : Rat) := by exact_mod_cast hint.1
    have h2 : ((2 * (n * D - N) : Int) : Rat) ≤ ((D : Int) : Rat) := by exact_mod_cast hint.2
    rw [abs_le]
    push_cast at h1 h2 ⊢
    constructor <;> nlinarith
  · rw [div_mul_cancel₀]
    · exact Rat.den_intCast n
    · norm_num

/-- pad2 yields exactly two characters below one hundred. -/
theorem pad2_length : ∀ n, n < 100 → (pad2 n).length = 2 := by decide

/-- The error sentinel string shared by both tool functions. -/
theorem sentinel_eq :
    jsonDumps (.obj [("error", .str "City not found")])
      = "\x7b\"error\": \"City not found\"\x7d" := rfl

/-! ## Claim C5: identical error sentinel for every failure cause -/

/-- C5: for every place name P, when the location fetch fails for any
reason - absent weather key, network exception, or non-200 status - both
get_current_weather and get_current_time return the identical JSON string
with the City not found sentinel, independent of the failure cause, and
no exception propagates (both functions are total). -/
theorem c5_error_sentinel (w : World) (P : String)
    (hfail : w.weather_key = false ∨ w.fetch (.str P) = .netError ∨
      ∃ st b, w.fetch (.str P) = .response st b ∧ st ≠ 200) :
    get_current_weather w (.str P) = "\x7b\"error\": \"City not found\"\x7d" ∧
    get_current_time w (.str P) = "\x7b\"error\": \"City not found\"\x7d" := by
  have hnone : get_location_data w (.str P) = none := by
    unfold get_location_data
    rcases hfail with h | h | ⟨st, b, h, hst⟩
    · simp [h]
    · rw [h]; simp
    · rw [h]; simp [hst]
  refine ⟨?_, ?_⟩
  · unfold get_current_weather
    rw [hnone]
    exact sentinel_eq
  · unfold get_current_time
    rw [hnone]
    exact sentinel_eq

/-- C5 witness: with the weather key absent, both tool functions answer
the sentinel for Atlantis. -/
theorem c5_error_sentinel_witness :
    get_current_weather ⟨false, fun _ => .netError, 0, fun _ => []⟩ (.str "Atlantis")
        = "\x7b\"error\": \"City not found\"\x7d" ∧
    get_current_time ⟨false, fun _ => .netError, 0, fun _ => []⟩ (.str "Atlantis")
        = "\x7b\"error\": \"City not found\"\x7d" :=
  c5_error_sentinel _ "Atlantis" (Or.inl rfl)

/-! ## Claim C6: weather success shape -/

/-- C6: for every place name P for which the provider responds with
status 200, get_current_weather returns the JSON object with location P,
the temperature rounded to one decimal place (within one twentieth of the
source value, on a multiple of one tenth), the literal unit celsius and
the provider description. -/
theorem c6_weather_success (w : World) (P : String) (d : LocationData)
    (hkey : w.weather_key = true) (hfetch : w.fetch (.str P) = .response 200 d) :
    get_current_weather w (.str P) =
      jsonDumps (.obj [("location", .str P),
        ("temperature", .num (round1 d.temp)),
        ("unit", .str "celsius"),
        ("description", .str d.description)]) ∧
    |round1 d.temp - d.temp| ≤ 1 / 20 ∧ (round1 d.temp * 10).den = 1 := by
  have hsome : get_location_data w (.str P) = some d := by
    unfold get_location_data
    rw [hfetch, hkey]
    simp
  refine ⟨?_, round1_nearest d.temp⟩
  unfold get_current_weather
  rw [hsome]

/-- C6 witness: a 200 response for Seoul with temperature 22.46 yields
the concrete weather JSON string with temperature 22.5. -/
theorem c6_weather_success_witness :
    get_current_weather
        ⟨true, fun _ => .response 200 ⟨mkRat 1123 50, "clear sky", 32400⟩, 1700000000, fun _ => []⟩
        (.str "Seoul")
      = "\x7b\"location\": \"Seoul\", \"temperature\": 22.5, \"unit\": \"celsius\", \"description\": \"clear sky\"\x7d" := by
  have h := (c6_weather_success
    ⟨true, fun _ => .response 200 ⟨mkRat 1123 50, "clear sky", 32400⟩, 1700000000, fun _ => []⟩
    "Seoul" ⟨mkRat 1123 50, "clear sky", 32400⟩ rfl rfl).1
  rw [h]
  decide

/-! ## Claim C7: local-time success shape -/

/-- The hour of a converted epoch time is below 24. -/
theorem civil_hour_lt (t : Int) : (civilOfEpoch t).hour < 24 := by
  show (Int.emod t 86400).toNat / 3600 < 24
  have h1 : Int.emod t 86400 < 86400 := Int.emod_lt_of_pos t (by norm_num)
  have h : (Int.emod t 86400).toNat < 86400 := by omega
  omega

/-- The minute of a converted epoch time is below 60. -/
theorem civil_minute_lt (t : Int) : (civilOfEpoch t).minute < 60 := by
  show (Int.emod t 86400).toNat % 3600 / 60 < 60
  have h : (Int.emod t 86400).toNat % 3600 < 3600 := Nat.mod_lt _ (by omega)
  omega

/-- The 12-hour clock hour is at least one. -/
theorem hour12_pos (h : Nat) : 1 ≤ hour12 h := by
  unfold hour12
  split <;> omega

/-- The 12-hour clock hour is at most twelve. -/
theorem hour12_le (h : Nat) : hour12 h ≤ 12 := by
  unfold hour12
  split
  · omega
  · have := Nat.mod_lt h (show 0 < 12 by omega)
    omega

/-- C7: for every place name P for which the provider responds with
status 200, get_current_time returns the JSON object with location P and
a timestamp computed from present UTC time plus the provider offset,
formatted year-month-day, zero-padded two-digit 12-hour hour, colon,
zero-padded two-digit minute, and an AM or PM suffix. -/
theorem c7_time_success (w : World) (P : String) (d : LocationData)
    (hkey : w.weather_key = true) (hfetch : w.fetch (.str P) = .response 200 d) :
    get_current_time w (.str P) =
      jsonDumps (.obj [("location", .str P),
        ("current_time", .str (
          toString (civilOfEpoch (w.now + d.timezone)).year ++ "-" ++
          pad2 (civilOfEpoch (w.now + d.timezone)).month ++ "-" ++
          pad2 (civilOfEpoch (w.now + d.timezone)).day ++ " " ++
          pad2 (hour12 (civilOfEpoch (w.now + d.timezone)).hour) ++ ":" ++
          pad2 (civilOfEpoch (w.now + d.timezone)).minute ++ " " ++
          (if (civilOfEpoch (w.now + d.timezone)).hour < 12 then "AM" else "PM")))]) ∧
    (civilOfEpoch (w.now + d.timezone)).hour < 24 ∧
    (civilOfEpoch (w.now + d.timezone)).minute < 60 ∧
    1 ≤ hour12 (civilOfEpoch (w.now + d.timezone)).hour ∧
    hour12 (civilOfEpoch (w.now + d.timezone)).hour ≤ 12 ∧
    (pad2 (hour12 (civilOfEpoch (w.now + d.timezone)).hour)).length = 2 ∧
    (pad2 (civilOfEpoch (w.now + d.timezone)).minute).length = 2 := by
  have hsome : get_location_data w (.str P) = some d := by
    unfold get_location_data
    rw [hfetch, hkey]
    simp
  refine ⟨?_, civil_hour_lt _, civil_minute_lt _, hour12_pos _, hour12_le _,
    pad2_length _ (by have := hour12_le (civilOfEpoch (w.now + d.timezone)).hour; omega),
    pad2_length _ (by have := civil_minute_lt (w.now + d.timezone); omega)⟩
  unfold get_current_time
  rw [hsome]
  rfl

/-- C7 witness: for a 200 response with offset 32400 seconds at UTC epoch
second 1700000000, the local time JSON carries the concrete formatted
timestamp for Seoul. -/
theorem c7_time_success_witness :
    get_current_time
        ⟨true, fun _ => .response 200 ⟨mkRat 25 1, "clear sky", 32400⟩, 1700000000, fun _ => []⟩
        (.str "Seoul")
      = "\x7b\"location\": \"Seoul\", \"current_time\": \"2023-11-15 07:13 AM\"\x7d" := by
  have h := (c7_time_success
    ⟨true, fun _ => .response 200 ⟨mkRat 25 1, "clear sky", 32400⟩, 1700000000, fun _ => []⟩
    "Seoul" ⟨mkRat 25 1, "clear sky", 32400⟩ rfl rfl).1
  rw [h]
  decide

/-! ## Claim C3: idempotent session bootstrap -/

/-- C3: running the bootstrap a second time returns the same session -
identical assistant and thread handles - and issues no further remote
create call: the remote state is unchanged by the second run. -/
theorem c3_bootstrap_idempotent (s0 : AppState) (r0 : RemoteState) :
    ensure_session (ensure_session s0 r0).1 (ensure_session s0 r0).2
      = ensure_session s0 r0 ∧
    (ensure_session (ensure_session s0 r0).1 (ensure_session s0 r0).2).1.assistant
      = (ensure_session s0 r0).1.assistant ∧
    (ensure_session (ensure_session s0 r0).1 (ensure_session s0 r0).2).1.thread
      = (ensure_session s0 r0).1.thread ∧
    (ensure_session (ensure_session s0 r0).1 (ensure_session s0 r0).2).2.assistantsCreated
      = (ensure_session s0 r0).2.assistantsCreated ∧
    (ensure_session (ensure_session s0 r0).1 (ensure_session s0 r0).2).2.threadsCreated
      = (ensure_session s0 r0).2.threadsCreated := by
  have key : ensure_session (ensure_session s0 r0).1 (ensure_session s0 r0).2
      = ensure_session s0 r0 := by
    cases h : s0.assistant with
    | some a =>
        simp [ensure_session, h]
    | none =>
        cases hc : s0.assistantCache with
        | some c =>
            simp [ensure_session, cached_create_assistant, create_thread, h, hc]
        | none =>
            simp [ensure_session, cached_create_assistant, create_assistant,
              create_thread, h, hc]
  exact ⟨key, by rw [key], by rw [key], by rw [key], by rw [key]⟩

/-- C3 instance: from a fresh process state, the first bootstrap creates
exactly one assistant and one thread, and the second bootstrap changes
nothing. -/
theorem c3_bootstrap_fresh_instance :
    (ensure_session ⟨none, none, none, none⟩ ⟨0, 0, 0⟩).2 = ⟨2, 1, 1⟩ ∧
    ensure_session (ensure_session ⟨none, none, none, none⟩ ⟨0, 0, 0⟩).1
        (ensure_session ⟨none, none, none, none⟩ ⟨0, 0, 0⟩).2
      = ensure_session ⟨none, none, none, none⟩ ⟨0, 0, 0⟩ :=
  ⟨rfl, (c3_bootstrap_idempotent ⟨none, none, none, none⟩ ⟨0, 0, 0⟩).1⟩

/-! ## Claim C4: extension-based routing of an uploaded file -/

/-- The messages.create record of a turn does not depend on how the loop
ends: it always carries the built content and attachments. -/
theorem handleTurn_msg (env : TurnEnv) (prompt : String) (t0 : List Turn) :
    (handleTurn env prompt t0).msg
      = ⟨(buildMessage env.uploaded_file env.upload_id prompt).1,
         (buildMessage env.uploaded_file env.upload_id prompt).2⟩ := by
  unfold handleTurn
  cases h : (runLoop env.world env.script).2 <;> simp [h]

/-- C4: a single uploaded file is routed by its lowercased extension to
exactly one of two paths: an image extension yields the two-part content
- text part and image reference - with an empty attachments list, while
any other allow-listed extension yields plain text content plus one
attachment carrying the uploaded handle and the two capabilities
code_interpreter and file_search. -/
theorem c4_file_routing (env : TurnEnv) (prompt name : String) (t0 : List Turn)
    (hup : env.uploaded_file = some name) :
    (((splitextExt name).data.map Char.toLower).asString ∈ imageExts →
      (handleTurn env prompt t0).msg
        = ⟨.parts [.text prompt, .image_file env.upload_id], []⟩) ∧
    (((splitextExt name).data.map Char.toLower).asString ∈ uploadAllowList →
      ((splitextExt name).data.map Char.toLower).asString ∉ imageExts →
      (handleTurn env prompt t0).msg
        = ⟨.plain prompt, [⟨env.upload_id, [.code_interpreter, .file_search]⟩]⟩) := by
  rw [handleTurn_msg env prompt t0]
  constructor
  · intro him
    simp [buildMessage, hup, him]
  · intro _ hnot
    simp [buildMessage, hup, hnot]

/-- C4 witness: chart.png goes to the inline-image path with no
attachments; data.csv goes to the attachment path with plain content and
both capabilities. -/
theorem c4_file_routing_witness :
    (handleTurn ⟨⟨true, fun _ => .netError, 0, fun _ => []⟩, some "chart.png", 7,
        [.completed], []⟩ "describe this image" []).msg
      = ⟨.parts [.text "describe this image", .image_file 7], []⟩ ∧
    (handleTurn ⟨⟨true, fun _ => .netError, 0, fun _ => []⟩, some "data.csv", 9,
        [.completed], []⟩ "summarize this" []).msg
      = ⟨.plain "summarize this", [⟨9, [.code_interpreter, .file_search]⟩]⟩ :=
  ⟨(c4_file_routing _ "describe this image" "chart.png" [] rfl).1 (by decide),
   (c4_file_routing _ "summarize this" "data.csv" [] rfl).2 (by decide) (by decide)⟩

/-! ## Claim C8: renderer partition of content blocks -/

/-- C8: over the ordered content blocks of the newest assistant message,
the renderer concatenates the text block values in block order, resolves
the image handles to bytes in order, and resolves every file_path marker
to bytes named by the trailing path component of its path; one marker
pointing at the sandbox report path yields exactly one download entry
named report.xlsx with its resolved bytes. -/
theorem c8_renderer (store : Nat → List Nat) (blocks : List ContentBlock) :
    (renderContent store blocks).response_txt = textConcat blocks ∧
    (renderContent store blocks).images_to_show = (imageIds blocks).map store ∧
    (renderContent store blocks).files_to_download
      = (filePathPairs blocks).map (fun p => (basename p.2, store p.1)) ∧
    basename "/sandbox/report.xlsx" = "report.xlsx" ∧
    (∀ t k, renderContent store [.text t [.file_path k "/sandbox/report.xlsx"]]
      = ⟨t, [], [("report.xlsx", store k)]⟩) := by
  have hmk : ∀ ms : List TextMarker, markerFiles store ms
      = (ms.filterMap (fun m =>
          match m with
          | .file_path fid t => some (fid, t)
          | .otherMarker => none)).map (fun p => (basename p.2, store p.1)) := by
    intro ms
    rw [markerFiles, List.map_filterMap]
    congr 1
    funext m
    cases m <;> rfl
  have main : (renderContent store blocks).response_txt = textConcat blocks ∧
      (renderContent store blocks).images_to_show = (imageIds blocks).map store ∧
      (renderContent store blocks).files_to_download
        = (filePathPairs blocks).map (fun p => (basename p.2, store p.1)) := by
    induction blocks with
    | nil => exact ⟨rfl, rfl, rfl⟩
    | cons b rest ih =>
        cases b with
        | text v ms =>
            refine ⟨?_, ?_, ?_⟩ <;>
              simp [renderContent, textConcat, imageIds, filePathPairs, hmk,
                ih.1, ih.2.1, ih.2.2]
        | image_file fid =>
            refine ⟨?_, ?_, ?_⟩ <;>
              simp [renderContent, textConcat, imageIds, filePathPairs,
                ih.1, ih.2.1, ih.2.2]
        | otherBlock =>
            refine ⟨?_, ?_, ?_⟩ <;>
              simp [renderContent, textConcat, imageIds, filePathPairs,
                ih.1, ih.2.1, ih.2.2]
  refine ⟨main.1, main.2.1, main.2.2, rfl, ?_⟩
  intro t k
  simp [renderContent, markerFiles]
  rfl

/-! ## Claim C10: the user turn stores the raw prompt -/

/-- C10: for every user turn - whatever was uploaded and however the run
ends, including an uncaught dispatch exception - the transcript first
grows by a user turn that stores the raw prompt string as content and
carries no images and no files keys; the structured content only ever
appears in the messages.create record, never in the transcript. -/
theorem c10_user_turn_raw (env : TurnEnv) (prompt : String) (t0 : List Turn) :
    (handleTurn env prompt t0).transcript.take (t0.length + 1)
      = t0 ++ [⟨"user", .plain prompt, none, none⟩] ∧
    (handleTurn env prompt t0).transcript.length ≥ t0.length + 1 := by
  have hu : userTurn prompt = ⟨"user", .plain prompt, none, none⟩ := rfl
  have hlen : (t0 ++ [userTurn prompt]).length = t0.length + 1 := by simp
  have htake : ∀ tail : List Turn,
      ((t0 ++ [userTurn prompt]) ++ tail).take (t0.length + 1)
        = t0 ++ [userTurn prompt] := by
    intro tail
    rw [← hlen, List.take_left]
  unfold handleTurn
  cases h : (runLoop env.world env.script).2 <;> simp [h] <;> rw [← hu] <;>
    first
      | simpa using htake []
      | simpa using htake
          [assistantTurn (renderContent env.world.files_content env.latest_content)]

/-! ## Claim C2: one output per call, full batch submitted atomically -/

/-- The dispatch of a whole batch succeeds exactly when every call
dispatches, yields one output per call in order, and each output is the
dispatch of the call at the same position. -/
theorem processToolCalls_pointwise (w : World) (tcs : List ToolCall)
    (outs : List (String × String)) (h : processToolCalls w tcs = .ok outs) :
    outs.length = tcs.length ∧
    ∀ i (hi : i < tcs.length) (ho : i < outs.length),
      processOneTool w (tcs.get ⟨i, hi⟩) = .ok (outs.get ⟨i, ho⟩) := by
  induction tcs generalizing outs with
  | nil =>
      unfold processToolCalls at h
      cases h
      exact ⟨rfl, fun i hi ho => absurd hi (by simp)⟩
  | cons tc rest ih =>
      unfold processToolCalls at h
      cases h1 : processOneTool w tc with
      | error e => rw [h1] at h; cases h
      | ok p =>
          rw [h1] at h
          cases h2 : processToolCalls w rest with
          | error e => rw [h2] at h; cases h
          | ok ps =>
              rw [h2] at h
              cases h
              obtain ⟨hlen, hpt⟩ := ih ps h2
              refine ⟨by simpa using hlen, ?_⟩
              intro i hi ho
              cases i with
              | zero => simpa using h1
              | succ j =>
                  have hj : j < rest.length := by simpa using hi
                  have hj2 : j < ps.length := by simpa using ho
                  simpa using hpt j hj hj2

/-- C2: in a requires_action state with a batch of tool calls whose
dispatch raises no exception, the loop produces exactly one output per
call - resolved by function name, with get_current_weather and
get_current_time invoked on the decoded location argument and every
unrecognized name answered with the literal two-character empty-object
string - and submits all the pairs together as one submit_tool_outputs
batch before resuming polling with the rest of the script; it never
submits a partial batch. -/
theorem c2_full_batch_dispatch (w : World) (tcs : List ToolCall)
    (outs : List (String × String)) (h : processToolCalls w tcs = .ok outs) :
    outs.length = tcs.length ∧
    (∀ i (hi : i < tcs.length) (ho : i < outs.length),
      processOneTool w (tcs.get ⟨i, hi⟩) = .ok (outs.get ⟨i, ho⟩)) ∧
    (∀ tc r, processOneTool w tc = .ok r →
      r.1 = tc.id ∧
      (tc.function_name = "get_current_weather" →
        ∃ loc, decodeLocation tc.arguments = .ok loc ∧
          r.2 = get_current_weather w loc) ∧
      (tc.function_name = "get_current_time" →
        ∃ loc, decodeLocation tc.arguments = .ok loc ∧
          r.2 = get_current_time w loc) ∧
      (tc.function_name ≠ "get_current_weather" →
        tc.function_name ≠ "get_current_time" → r.2 = "\x7b\x7d")) ∧
    (∀ rest, runLoop w (.requires_action tcs :: rest)
      = (outs :: (runLoop w rest).1, (runLoop w rest).2)) := by
  obtain ⟨hlen, hpt⟩ := processToolCalls_pointwise w tcs outs h
  refine ⟨hlen, hpt, ?_, ?_⟩
  · intro tc r hr
    unfold processOneTool at hr
    split at hr
    · cases hr
    · next args hj =>
        split at hr
        · next hw =>
            split at hr
            · cases hr
            · next loc hg =>
                cases hr
                refine ⟨rfl, fun _ => ⟨loc, ?_, rfl⟩,
                  fun ht => absurd (hw.symm.trans ht) (by decide),
                  fun hnw _ => absurd hw hnw⟩
                unfold decodeLocation
                rw [hj]
                exact hg
        · next hw =>
            split at hr
            · next ht =>
                split at hr
                · cases hr
                · next loc hg =>
                    cases hr
                    refine ⟨rfl, fun hw2 => absurd hw2 hw, fun _ => ⟨loc, ?_, rfl⟩,
                      fun _ hnt => absurd ht hnt⟩
                    unfold decodeLocation
                    rw [hj]
                    exact hg
            · next ht =>
                cases hr
                exact ⟨rfl, fun hw2 => absurd hw2 hw, fun ht2 => absurd ht2 ht,
                  fun _ _ => rfl⟩
  · intro rest
    conv_lhs => rw [runLoop]
    rw [h]

/-- C2 witness: a two-call batch - one weather call for Seoul and one
unrecognized name - dispatches to exactly two outputs, submitted as one
batch ahead of the remaining script. -/
theorem c2_full_batch_dispatch_witness :
    processToolCalls
        ⟨true, fun _ => .response 200 ⟨mkRat 1123 50, "clear sky", 32400⟩, 1700000000, fun _ => []⟩
        [⟨"call_1", "get_current_weather", some (.obj [("location", .str "Seoul")])⟩,
         ⟨"call_2", "mystery_tool", some (.obj [])⟩]
      = .ok [("call_1",
          "\x7b\"location\": \"Seoul\", \"temperature\": 22.5, \"unit\": \"celsius\", \"description\": \"clear sky\"\x7d"),
          ("call_2", "\x7b\x7d")] ∧
    runLoop
        ⟨true, fun _ => .response 200 ⟨mkRat 1123 50, "clear sky", 32400⟩, 1700000000, fun _ => []⟩
        [.requires_action
          [⟨"call_1", "get_current_weather", some (.obj [("location", .str "Seoul")])⟩,
           ⟨"call_2", "mystery_tool", some (.obj [])⟩], .completed]
      = ([[("call_1",
          "\x7b\"location\": \"Seoul\", \"temperature\": 22.5, \"unit\": \"celsius\", \"description\": \"clear sky\"\x7d"),
          ("call_2", "\x7b\x7d")]], .completedEnd) := by
  have hok : processToolCalls
      ⟨true, fun _ => .response 200 ⟨mkRat 1123 50, "clear sky", 32400⟩, 1700000000, fun _ => []⟩
      [⟨"call_1", "get_current_weather", some (.obj [("location", .str "Seoul")])⟩,
       ⟨"call_2", "mystery_tool", some (.obj [])⟩]
    = .ok [("call_1",
        "\x7b\"location\": \"Seoul\", \"temperature\": 22.5, \"unit\": \"celsius\", \"description\": \"clear sky\"\x7d"),
        ("call_2", "\x7b\x7d")] := by rfl
  refine ⟨hok, ?_⟩
  have h4 := (c2_full_batch_dispatch _ _ _ hok).2.2.2 [.completed]
  rw [h4]
  rfl

/-! ## Claim C9: dispatch totality precondition for the two known tools -/

/-- For the two recognized function names, one dispatch iteration is the
location decoding followed by the matching tool invocation. -/
theorem processOneTool_known (w : World) (tc : ToolCall)
    (hname : tc.function_name = "get_current_weather" ∨
      tc.function_name = "get_current_time") :
    processOneTool w tc = match decodeLocation tc.arguments with
      | .error e => .error e
      | .ok loc => .ok (tc.id,
          if tc.function_name = "get_current_weather" then get_current_weather w loc
          else get_current_time w loc) := by
  unfold processOneTool decodeLocation
  cases hj : json_loads tc.arguments with
  | error e => rfl
  | ok args =>
      rcases hname with hn | hn <;> rw [hn] <;>
        cases hg : getItem args "location" <;> simp

/-- C9: for every tool call named get_current_weather or
get_current_time, dispatch is total exactly under the precondition that
the arguments string is valid JSON containing the key location: when the
decoding fails the iteration raises that exception uncaught - no locally
produced error output and no submit_tool_outputs call for the batch - and
when it succeeds the call is answered with an output. -/
theorem c9_dispatch_partiality (w : World) (tc : ToolCall)
    (hname : tc.function_name = "get_current_weather" ∨
      tc.function_name = "get_current_time") :
    (∀ e, decodeLocation tc.arguments = .error e →
      processOneTool w tc = .error e ∧
      runLoop w [.requires_action [tc]] = ([], .raisedEnd e)) ∧
    (∀ loc, decodeLocation tc.arguments = .ok loc →
      ∃ out, processOneTool w tc = .ok (tc.id, out)) := by
  have hbr := processOneTool_known w tc hname
  constructor
  · intro e he
    have hone : processOneTool w tc = .error e := by rw [hbr, he]
    refine ⟨hone, ?_⟩
    have hbatch : processToolCalls w [tc] = .error e := by
      unfold processToolCalls
      rw [hone]
    conv_lhs => rw [runLoop]
    rw [hbatch]
  · intro loc hl
    exact ⟨_, by rw [hbr, hl]⟩

/-- C9 witness: an invalid arguments string on a time call and a valid
but location-free arguments object on a weather call both abort the batch
with the raised exception and no submission; a well-formed weather call
is answered. -/
theorem c9_dispatch_partiality_witness :
    (processOneTool ⟨true, fun _ => .netError, 0, fun _ => []⟩
        ⟨"call_9", "get_current_time", none⟩ = .error .jsonDecodeError ∧
      runLoop ⟨true, fun _ => .netError, 0, fun _ => []⟩
        [.requires_action [⟨"call_9", "get_current_time", none⟩]]
        = ([], .raisedEnd .jsonDecodeError)) ∧
    (processOneTool ⟨true, fun _ => .netError, 0, fun _ => []⟩
        ⟨"call_8", "get_current_weather", some (.obj [("city", .str "Seoul")])⟩
        = .error .keyError ∧
      runLoop ⟨true, fun _ => .netError, 0, fun _ => []⟩
        [.requires_action [⟨"call_8", "get_current_weather", some (.obj [("city", .str "Seoul")])⟩]]
        = ([], .raisedEnd .keyError)) ∧
    (∃ out, processOneTool ⟨true, fun _ => .netError, 0, fun _ => []⟩
        ⟨"call_7", "get_current_weather", some (.obj [("location", .str "Seoul")])⟩
        = .ok ("call_7", out)) :=
  ⟨(c9_dispatch_partiality _ _ (Or.inr rfl)).1 .jsonDecodeError rfl,
   (c9_dispatch_partiality _ _ (Or.inl rfl)).1 .keyError rfl,
   (c9_dispatch_partiality _ _ (Or.inl rfl)).2 (.str "Seoul") rfl⟩

/-! ## Claim C1: behavior at a terminal error status -/

/-- A sequence of quiet polls followed by a terminal error status makes
the loop end in the error state with no submissions, regardless of what
the script holds beyond the terminal status. -/
theorem runLoop_quiet_error (w : World) (pre rest : List PollStatus) (es : ErrStatus)
    (hpre : ∀ s ∈ pre, s = PollStatus.in_progress ∨ s = PollStatus.queued) :
    runLoop w (pre ++ statusOfErr es :: rest) = ([], .errorEnd es) := by
  induction pre with
  | nil => cases es <;> rfl
  | cons s pre ih =>
      have hs := hpre s (by simp)
      have hrest : ∀ x ∈ pre, x = PollStatus.in_progress ∨ x = PollStatus.queued :=
        fun x hx => hpre x (by simp [hx])
      rcases hs with h | h <;> subst h <;>
        simpa [runLoop] using ih hrest

/-- C1 counterexample: with the poll script in_progress, in_progress,
failed, the loop exits at the error state and the error box is shown, but
the transcript does not stay unchanged - the result-processing step still
runs and appends a new assistant turn (rendered from the newest thread
message), contradicting the claim that no new assistant turn is appended. -/
theorem c1_counterexample :
    (handleTurn
        ⟨⟨true, fun _ => .netError, 0, fun _ => []⟩, none, 0,
          [.in_progress, .in_progress, .failed], []⟩
        "hello" []).errorShown = true ∧
    (handleTurn
        ⟨⟨true, fun _ => .netError, 0, fun _ => []⟩, none, 0,
          [.in_progress, .in_progress, .failed], []⟩
        "hello" []).transcript
      = [⟨"user", .plain "hello", none, none⟩,
         ⟨"assistant", .plain "", some [], some []⟩] :=
  ⟨rfl, rfl⟩

/-- C1 amended: if the loop observes a terminal status in failed,
cancelled or expired after any number of quiet polls, it stops
immediately - ignoring the remainder of the script, with no retry and no
tool-output submission - and raises the user-visible error indicator;
however the transcript is not left unchanged: the result-processing step
still runs and appends one assistant turn rendered from the newest thread
message after the user turn. -/
theorem c1_error_exit_appends (env : TurnEnv) (prompt : String) (t0 : List Turn)
    (pre rest : List PollStatus) (es : ErrStatus)
    (hscript : env.script = pre ++ statusOfErr es :: rest)
    (hpre : ∀ s ∈ pre, s = PollStatus.in_progress ∨ s = PollStatus.queued) :
    (handleTurn env prompt t0).errorShown = true ∧
    (handleTurn env prompt t0).loop_end = .errorEnd es ∧
    (handleTurn env prompt t0).submissions = [] ∧
    (handleTurn env prompt t0).transcript
      = t0 ++ [userTurn prompt,
          assistantTurn (renderContent env.world.files_content env.latest_content)] := by
  have hrl : runLoop env.world env.script = ([], .errorEnd es) := by
    rw [hscript]
    exact runLoop_quiet_error env.world pre rest es hpre
  unfold handleTurn
  rw [hrl]
  simp

/-- C1 amended witness: the concrete script in_progress, in_progress,
failed with trailing entries never read. -/
theorem c1_error_exit_appends_witness :
    (handleTurn
        ⟨⟨true, fun _ => .netError, 0, fun _ => []⟩, none, 0,
          [.in_progress, .in_progress, .failed, .completed], []⟩
        "hello" []).errorShown = true ∧
    (handleTurn
        ⟨⟨true, fun _ => .netError, 0, fun _ => []⟩, none, 0,
          [.in_progress, .in_progress, .failed, .completed], []⟩
        "hello" []).loop_end = .errorEnd .failed ∧
    (handleTurn
        ⟨⟨true, fun _ => .netError, 0, fun _ => []⟩, none, 0,
          [.in_progress, .in_progress, .failed, .completed], []⟩
        "hello" []).submissions = [] ∧
    (handleTurn
        ⟨⟨true, fun _ => .netError, 0, fun _ => []⟩, none, 0,
          [.in_progress, .in_progress, .failed, .completed], []⟩
        "hello" []).transcript
      = [] ++ [userTurn "hello",
          assistantTurn (renderContent (fun _ => []) [])] :=
  c1_error_exit_appends _ "hello" [] [.in_progress, .in_progress] [.completed] .failed
    rfl (by
      intro s hs
      simp only [List.mem_cons, List.not_mem_nil, or_false] at hs
      rcases hs with h | h <;> subst h
      · exact Or.inl rfl
      · exact Or.inl rfl)
